import Mathlib

/-!
Shallow embedding of the order-lifecycle workflow engine of
`core/workflow/` (types.py, order_workflow.py, registry.py, service.py)
together with the pieces of `core/models.py` it touches
(`Order.status`, `OrderTransitionLog`).

Conventions of the embedding:
- Python strings stay `String`; order primary keys become `Nat`.
- The database is an explicit `DB` value (order rows plus the audit log,
  newest log entry first, mirroring `ordering = ["-created_at"]`).
- `transition` receives the caller's in-memory order object as an
  `OrderRec` snapshot (its `pk` and `status` as the caller sees them);
  the authoritative row lives in `DB.orders` and is re-read under lock.
- Python exceptions that escape `TransitionService` (unknown registry
  keys, a missing row, the `IntegrityError` of a duplicate idempotency
  key insert) become `Except.error`; `transaction.atomic` rollback is
  modelled by returning the pre-transaction `DB` on those errors.
- Side-effecting actions cannot touch the modelled `DB` (all built-ins
  are no-op stubs); an `ExecResult` therefore records which effect keys
  were invoked (`effects_run`) and whether the row lock was taken
  (`lock_taken`), so that frame properties are statable.
- Python truthiness of strings / optional strings (`reason or default`,
  `if idempotency_key:`) is modelled explicitly by `pyStrOr`,
  `pyOptStrOr` and `pyKeyTruthy`.
-/

/-- `core.models.OrderStatus` (a `TextChoices`: members compare as strings). -/
def OrderStatus.pending : String := "pending"

def OrderStatus.paid : String := "paid"

def OrderStatus.shipped : String := "shipped"

def OrderStatus.fulfilled : String := "fulfilled"

def OrderStatus.refunded : String := "refunded"

def OrderStatus.returned : String := "returned"

def OrderStatus.cancelled : String := "cancelled"

/-- The parameter dictionary `params: Dict[str, Any]`.  Only the
`"required_perms"` entry is ever read by the engine (in
`guard_role_allowed`); the rest of the dictionary is opaque payload that
is stored verbatim into the audit metadata, modelled by `extra`. -/
structure Params where
  required_perms : Option (List String) := none
  extra : List (String × String) := []
deriving DecidableEq, Repr

/-- An actor (`request.user` or a system user): authentication flag,
anonymity (`isinstance(user, AnonymousUser)`), granted permissions
(`user.has_perm`), and `get_username()`. -/
structure Actor where
  username : String := ""
  is_authenticated : Bool := false
  is_anonymous : Bool := false
  perms : List String := []
deriving DecidableEq, Repr

/-- The caller-visible order object: primary key and status
(`core.models.Order`; the other columns never influence the engine). -/
structure OrderRec where
  pk : Nat
  status : String
deriving DecidableEq, Repr

/-- `core.workflow.types.Transition` (frozen dataclass). -/
structure Transition where
  name : String
  from_states : List String
  to_state : String
  guards : List String := []
  effects : List String := []
  permissions : List String := []
  description : String := ""
deriving DecidableEq, Repr

/-- `core.workflow.types.TransitionContext`.  The opaque `request`
handle is dropped: nothing in the engine reads it. -/
structure TransitionContext where
  order : OrderRec
  actor_user : Option Actor := none
  actor_label : String := ""
  note : String := ""
  params : Params := {}
  idempotency_key : Option String := none
  dry_run : Bool := false
deriving Repr

/-- `core.workflow.types.TransitionAttempt`. -/
structure TransitionAttempt where
  transition : Transition
  allowed : Bool
  reason : Option String := none
deriving DecidableEq, Repr

/-- `core.workflow.types.TransitionResult`.  The unused `data` dict is
dropped (it is never written by the engine). -/
structure TransitionResult where
  success : Bool
  from_state : String
  to_state : Option String := none
  messages : List String := []
  errors : List String := []
  idempotent : Bool := false
  log_id : Option Nat := none
deriving DecidableEq, Repr

/-- A row of `core.models.OrderTransitionLog`; the `metadata` JSON dict
`{"transition": ..., "params": ..., "effects": ...}` is flattened into
the three `meta_*` fields. -/
structure LogEntry where
  id : Nat
  order_pk : Nat
  from_state : String
  to_state : String
  actor_user : Option String
  actor_label : String
  note : String
  meta_transition : String
  meta_params : Params
  meta_effects : List String
  idempotency_key : Option String
deriving DecidableEq, Repr

/-- The database: order rows and the audit log (newest entry first,
mirroring `Meta.ordering = ["-created_at"]`), plus the next log id. -/
structure DB where
  orders : List OrderRec
  logs : List LogEntry
  next_log_id : Nat := 1
deriving DecidableEq, Repr

/-- `Order.objects...get(pk=...)`: the row with the given primary key. -/
def DB.getOrder (db : DB) (pk : Nat) : Option OrderRec :=
  db.orders.find? (fun o => o.pk == pk)

/-- `locked.save(update_fields=["status", "updated_at"])`: write the new
status onto the row with the given pk. -/
def DB.setStatus (db : DB) (pk : Nat) (s : String) : DB :=
  { db with orders := db.orders.map (fun o => if o.pk == pk then { o with status := s } else o) }

/-- Python `s or default` on a string (empty string is falsy). -/
def pyStrOr (s d : String) : String :=
  if s = "" then d else s

/-- Python `r or default` on an optional string (`None` and `""` falsy). -/
def pyOptStrOr (r : Option String) (d : String) : String :=
  match r with
  | none => d
  | some s => pyStrOr s d

/-- Python truthiness of `idempotency_key: Optional[str]`. -/
def pyKeyTruthy (k : Option String) : Bool :=
  match k with
  | none => false
  | some s => !(s == "")

/-- `actor_user if getattr(actor_user, "is_authenticated", False) else None`. -/
def actor_ref (u : Option Actor) : Option String :=
  match u with
  | none => none
  | some a => if a.is_authenticated then some a.username else none

/-- `getattr(actor_user, "get_username", lambda: "")() if actor_user else ""`. -/
def actor_name (u : Option Actor) : String :=
  match u with
  | none => ""
  | some a => a.username

-- Message strings of the engine, factored out of the f-strings verbatim.

/-- f-string of `TransitionService.transition`, undefined-transition branch. -/
def msg_no_transition (f t : String) : String := s!"No transition defined from {f} to {t}"

/-- f-string of `TransitionService.can_transition`, no-definition branch. -/
def msg_not_defined (f t : String) : String := s!"Transition from {f} to {t} is not defined"

/-- Pseudo-transition name used by `can_transition` when nothing matches. -/
def pseudo_to_name (t : String) : String := s!"to:{t}"

/-- Fallback reason of `TransitionService._evaluate_guards`. -/
def msg_guard_failed (k : String) : String := s!"Guard failed: {k}"

/-- Generic error of the guard-failure branch of `transition`. -/
def msg_blocked : String := "Transition blocked by guard"

/-- Dry-run success message. -/
def msg_dry_run (f t nm : String) : String := s!"Dry-run OK: {f} → {t} via {nm}"

/-- Concurrent-state-change error message. -/
def msg_concurrent (f t : String) : String := s!"State changed concurrently; {f} → {t} not allowed"

/-- Idempotent-replay message. -/
def msg_idempotent : String := "Idempotent replay"

/-- Success message of a real transition. -/
def msg_success (f t nm : String) : String := s!"{f} → {t} via {nm}"

/-- Per-effect completion message. -/
def msg_effect_ok (k : String) : String := s!"effect:{k}:ok"

/-- Reason returned by `guard_role_allowed` for a missing/anonymous user. -/
def msg_auth_required : String := "Authentication required"

/-- Reason returned by `guard_role_allowed` for a missing permission. -/
def msg_missing_perm (p : String) : String := s!"Missing permission: {p}"

-- Registries (`core.workflow.registry`)

/-- A guard `(TransitionContext) -> (allowed, reason)`. -/
abbrev GuardFn := TransitionContext → Bool × Option String

/-- The guard registry dict `_GUARDS`. -/
abbrev GuardReg := List (String × GuardFn)

/-- An effect `(TransitionContext) -> None`: it cannot touch the
modelled `DB`, so only its registration matters; its invocation is
recorded in `ExecResult.effects_run`. -/
abbrev EffectFn := Unit

/-- The effect registry dict `_EFFECTS`. -/
abbrev EffectReg := List (String × EffectFn)

/-- Exceptions that can escape the engine (all raised as
`ImproperlyConfigured`, `Order.DoesNotExist` or `IntegrityError`). -/
inductive EngineError where
  | duplicate_guard (k : String)
  | unknown_guard (k : String)
  | duplicate_effect (k : String)
  | unknown_effect (k : String)
  | order_not_found (pk : Nat)
  | integrity_error
deriving DecidableEq, Repr

/-- Dictionary lookup on a registry. -/
def regFind (reg : List (String × α)) (k : String) : Option α :=
  (reg.find? (fun p => p.1 == k)).map (fun p => p.2)

/-- `registry.register_guard`. -/
def register_guard (reg : GuardReg) (k : String) (f : GuardFn) : Except EngineError GuardReg :=
  if (regFind reg k).isSome then .error (.duplicate_guard k) else .ok ((k, f) :: reg)

/-- `registry.get_guard`. -/
def get_guard (reg : GuardReg) (k : String) : Except EngineError GuardFn :=
  match regFind reg k with
  | some f => .ok f
  | none => .error (.unknown_guard k)

/-- `registry.register_effect`. -/
def register_effect (reg : EffectReg) (k : String) (f : EffectFn) : Except EngineError EffectReg :=
  if (regFind reg k).isSome then .error (.duplicate_effect k) else .ok ((k, f) :: reg)

/-- `registry.get_effect`. -/
def get_effect (reg : EffectReg) (k : String) : Except EngineError EffectFn :=
  match regFind reg k with
  | some f => .ok f
  | none => .error (.unknown_effect k)

/-- `registry.guard_payment_authorized` (stub: always allow). -/
def guard_payment_authorized : GuardFn := fun _ => (true, none)

/-- `registry.guard_inventory_available` (stub: always allow). -/
def guard_inventory_available : GuardFn := fun _ => (true, none)

/-- `registry.guard_role_allowed`. -/
def guard_role_allowed : GuardFn := fun ctx =>
  let required :=
    match ctx.params.required_perms with
    | none => ["core.change_order"]
    | some l => if l.isEmpty then ["core.change_order"] else l
  match ctx.actor_user with
  | none => (false, some msg_auth_required)
  | some u =>
    if u.is_anonymous then (false, some msg_auth_required)
    else
      match required.find? (fun p => !(u.perms.contains p)) with
      | some p => (false, some (msg_missing_perm p))
      | none => (true, none)

/-- The registry contents after the `register_guard` calls at the bottom
of `registry.py` (keys are pairwise distinct, so dict order is
immaterial). -/
def builtinGuards : GuardReg :=
  [("payment_authorized", guard_payment_authorized),
   ("inventory_available", guard_inventory_available),
   ("role_allowed", guard_role_allowed)]

/-- The registry contents after the `register_effect` calls at the
bottom of `registry.py` (all six built-ins are no-op stubs). -/
def builtinEffects : EffectReg :=
  [("capture_payment", ()), ("refund_payment", ()), ("reserve_inventory", ()),
   ("release_inventory", ()), ("send_email", ()), ("emit_webhook", ())]

/-- `core.workflow.order_workflow.TRANSITIONS`. -/
def TRANSITIONS : List Transition :=
  [{ name := "mark_paid",
     from_states := [OrderStatus.pending],
     to_state := OrderStatus.paid,
     guards := ["role_allowed", "payment_authorized"],
     effects := ["capture_payment", "reserve_inventory", "send_email", "emit_webhook"],
     description := "Mark order as paid (captures authorized payment, reserves inventory)." },
   { name := "ship",
     from_states := [OrderStatus.paid],
     to_state := OrderStatus.shipped,
     guards := ["role_allowed", "inventory_available"],
     effects := ["send_email", "emit_webhook"],
     description := "Mark order as shipped (notify customer)." },
   { name := "fulfill",
     from_states := [OrderStatus.shipped],
     to_state := OrderStatus.fulfilled,
     guards := ["role_allowed"],
     effects := ["send_email", "emit_webhook"],
     description := "Mark order as fulfilled (delivered/complete)." },
   { name := "cancel",
     from_states := [OrderStatus.pending, OrderStatus.paid],
     to_state := OrderStatus.cancelled,
     guards := ["role_allowed"],
     effects := ["release_inventory", "send_email", "emit_webhook"],
     description := "Cancel order (release inventory; external refunds can be handled separately)." },
   { name := "refund",
     from_states := [OrderStatus.fulfilled],
     to_state := OrderStatus.refunded,
     guards := ["role_allowed"],
     effects := ["refund_payment", "release_inventory", "send_email", "emit_webhook"],
     description := "Refund order after fulfillment (may be partial based on params)." },
   { name := "return",
     from_states := [OrderStatus.fulfilled],
     to_state := OrderStatus.returned,
     guards := ["role_allowed"],
     effects := ["release_inventory", "send_email", "emit_webhook"],
     description := "Mark order as returned (stock operations handled by effect)." }]

-- `core.workflow.service.TransitionService`, parameterized over the
-- transition table and the two registries.

/-- `TransitionService._select_transition`: the first definition (in
declaration order) whose target equals `to_state` and whose source set
contains `from_state`. -/
def select_transition (table : List Transition) (from_state to_state : String) : Option Transition :=
  table.find? (fun t => to_state == t.to_state && t.from_states.contains from_state)

/-- `TransitionService.transitions_for_state`. -/
def transitions_for_state (table : List Transition) (state : String) : List Transition :=
  table.filter (fun t => t.from_states.contains state)

/-- The loop body of `TransitionService._evaluate_guards`: evaluate the
guard keys in declared order, stopping at the first failure; an unknown
key raises. -/
def evaluate_guards_list (reg : GuardReg) : List String → TransitionContext →
    Except EngineError (Bool × Option String)
  | [], _ => .ok (true, none)
  | k :: rest, ctx =>
    match get_guard reg k with
    | .error e => .error e
    | .ok g =>
      let r := g ctx
      if r.1 then evaluate_guards_list reg rest ctx
      else .ok (false, some (pyOptStrOr r.2 (msg_guard_failed k)))

/-- `TransitionService._evaluate_guards`. -/
def evaluate_guards (reg : GuardReg) (t : Transition) (ctx : TransitionContext) :
    Except EngineError (Bool × Option String) :=
  evaluate_guards_list reg t.guards ctx

/-- `TransitionService.can_transition`. -/
def can_transition (table : List Transition) (reg : GuardReg) (order : OrderRec)
    (to_state : String) (ctx : TransitionContext) : Except EngineError TransitionAttempt :=
  match select_transition table order.status to_state with
  | none =>
    .ok { transition := { name := pseudo_to_name to_state, from_states := [order.status],
                          to_state := to_state },
          allowed := false,
          reason := some (msg_not_defined order.status to_state) }
  | some t =>
    match evaluate_guards reg t ctx with
    | .error e => .error e
    | .ok r => .ok { transition := t, allowed := r.1, reason := r.2 }

/-- The loop of `TransitionService.allowed_transitions` when a context
is given (an unknown guard key raises out of the loop). -/
def allowed_transitions_go (reg : GuardReg) (ctx : TransitionContext) :
    List Transition → Except EngineError (List TransitionAttempt)
  | [] => .ok []
  | t :: ts =>
    match evaluate_guards reg t ctx with
    | .error e => .error e
    | .ok r =>
      match allowed_transitions_go reg ctx ts with
      | .error e => .error e
      | .ok rest => .ok ({ transition := t, allowed := r.1, reason := r.2 } :: rest)

/-- `TransitionService.allowed_transitions`. -/
def allowed_transitions (table : List Transition) (reg : GuardReg) (order : OrderRec)
    (ctx : Option TransitionContext) : Except EngineError (List TransitionAttempt) :=
  match ctx with
  | none =>
    .ok ((transitions_for_state table order.status).map
      (fun t => { transition := t, allowed := true }))
  | some c => allowed_transitions_go reg c (transitions_for_state table order.status)

/-- The idempotency check of `transition` (filter by order AND key,
guarded by Python truthiness of the key; `first()` on the newest-first
log ordering). -/
def idem_lookup (db : DB) (pk : Nat) (k : Option String) : Option LogEntry :=
  if pyKeyTruthy k then
    db.logs.find? (fun l => l.order_pk == pk && l.idempotency_key == k)
  else none

/-- The storage-level unique constraint on
`OrderTransitionLog.idempotency_key` (`unique=True, null=True`): an
insert conflicts exactly when the inserted key is non-NULL and already
present (SQL uniqueness exempts NULLs, not empty strings). -/
def has_conflict (logs : List LogEntry) (k : Option String) : Bool :=
  match k with
  | none => false
  | some s => logs.any (fun l => l.idempotency_key == some s)

/-- The `for effect_key in latest_transition_def.effects` loop: look up
and invoke each effect in declared order, accumulating the completion
messages; an unknown key raises, with the already-invoked keys recorded
(their external side effects are not rolled back). -/
def run_effects (ereg : EffectReg) : List String →
    Except (EngineError × List String) (List String × List String)
  | [] => .ok ([], [])
  | k :: rest =>
    match get_effect ereg k with
    | .error e => .error (e, [])
    | .ok _ =>
      match run_effects ereg rest with
      | .error er => .error (er.1, k :: er.2)
      | .ok r => .ok (msg_effect_ok k :: r.1, k :: r.2)

/-- Outcome of one `TransitionService.transition` call: the returned
`TransitionResult` (or the escaped exception), the database after the
call (rolled back to the pre-call state when the atomic block raised),
whether `select_for_update` was reached, and the effect keys invoked. -/
structure ExecResult where
  outcome : Except EngineError TransitionResult
  db : DB
  lock_taken : Bool
  effects_run : List String

/-- `TransitionService.transition`. -/
def transition (table : List Transition) (greg : GuardReg) (ereg : EffectReg) (db : DB)
    (order : OrderRec) (to_state : String) (actor_user : Option Actor) (actor_label : String)
    (note : String) (params : Params) (idempotency_key : Option String) (dry_run : Bool) :
    ExecResult :=
  match select_transition table order.status to_state with
  | none =>
    { outcome := .ok { success := false, from_state := order.status, to_state := none,
                       errors := [msg_no_transition order.status to_state] },
      db := db, lock_taken := false, effects_run := [] }
  | some transition_def =>
    let ctx : TransitionContext :=
      { order := order, actor_user := actor_user, actor_label := actor_label, note := note,
        params := params, idempotency_key := idempotency_key, dry_run := dry_run }
    match evaluate_guards greg transition_def ctx with
    | .error e => { outcome := .error e, db := db, lock_taken := false, effects_run := [] }
    | .ok (false, reason) =>
      { outcome := .ok { success := false, from_state := order.status, to_state := none,
                         errors := [pyOptStrOr reason msg_blocked] },
        db := db, lock_taken := false, effects_run := [] }
    | .ok (true, _) =>
      if dry_run then
        { outcome := .ok { success := true, from_state := order.status, to_state := some to_state,
                           messages := [msg_dry_run order.status to_state transition_def.name] },
          db := db, lock_taken := false, effects_run := [] }
      else
        -- transaction.atomic(): Order.objects.select_for_update().get(pk=order.pk)
        match db.getOrder order.pk with
        | none =>
          { outcome := .error (.order_not_found order.pk), db := db, lock_taken := true,
            effects_run := [] }
        | some locked =>
          match idem_lookup db locked.pk idempotency_key with
          | some log =>
            { outcome := .ok { success := true, from_state := log.from_state,
                               to_state := some log.to_state, idempotent := true,
                               messages := [msg_idempotent], log_id := some log.id },
              db := db, lock_taken := true, effects_run := [] }
          | none =>
            match select_transition table locked.status to_state with
            | none =>
              { outcome := .ok { success := false, from_state := locked.status, to_state := none,
                                 errors := [msg_concurrent locked.status to_state] },
                db := db, lock_taken := true, effects_run := [] }
            | some latest_def =>
              let prev_state := locked.status
              let db1 := db.setStatus locked.pk to_state
              match run_effects ereg latest_def.effects with
              | .error er =>
                -- the exception aborts the atomic block: DB rolled back
                { outcome := .error er.1, db := db, lock_taken := true, effects_run := er.2 }
              | .ok r =>
                if has_conflict db1.logs idempotency_key then
                  -- OrderTransitionLog.objects.create raises IntegrityError; rollback
                  { outcome := .error .integrity_error, db := db, lock_taken := true,
                    effects_run := r.2 }
                else
                  let entry : LogEntry :=
                    { id := db.next_log_id, order_pk := locked.pk, from_state := prev_state,
                      to_state := to_state, actor_user := actor_ref actor_user,
                      actor_label := pyStrOr actor_label (actor_name actor_user), note := note,
                      meta_transition := latest_def.name, meta_params := params,
                      meta_effects := r.1, idempotency_key := idempotency_key }
                  { outcome := .ok { success := true, from_state := prev_state,
                                     to_state := some to_state,
                                     messages := msg_success prev_state to_state latest_def.name :: r.1,
                                     log_id := some entry.id },
                    db := { db1 with logs := entry :: db1.logs,
                                     next_log_id := db.next_log_id + 1 },
                    lock_taken := true, effects_run := r.2 }

-- Shared concrete fixtures used by witnesses and counterexamples.

/-- A staff actor holding the default `core.change_order` permission. -/
def adminActor : Actor :=
  { username := "admin", is_authenticated := true, is_anonymous := false,
    perms := ["core.change_order"] }

/-- A fresh database holding one order in `pending`. -/
def db0 : DB := { orders := [{ pk := 1, status := "pending" }], logs := [], next_log_id := 1 }

-- Helper lemmas about the table lookup and the guard loop.

theorem select_transition_eq_none (table : List Transition) (f to_state : String)
    (h : ∀ t ∈ table, t.from_states.contains f = false) :
    select_transition table f to_state = none := by
  rw [select_transition, List.find?_eq_none]
  intro t ht hp
  rw [Bool.and_eq_true] at hp
  rw [h t ht] at hp
  exact Bool.false_ne_true hp.2

theorem select_transition_is_match (table : List Transition) (f to_state : String) (t : Transition)
    (h : select_transition table f to_state = some t) :
    f ∈ t.from_states ∧ t.to_state = to_state := by
  have hp := List.find?_some h
  simp only [Bool.and_eq_true, beq_iff_eq, List.elem_iff] at hp
  exact ⟨hp.2, hp.1.symm⟩

theorem evaluate_guards_list_all_pass (reg : GuardReg) (ctx : TransitionContext) :
    ∀ (keys : List String) (r0 : Option String),
      evaluate_guards_list reg keys ctx = .ok (true, r0) →
      ∀ k ∈ keys, ∃ g, get_guard reg k = .ok g ∧ (g ctx).1 = true := by
  intro keys
  induction keys with
  | nil => intro r0 _ k hk; cases hk
  | cons a rest ih =>
    intro r0 h k hk
    unfold evaluate_guards_list at h
    cases hg : get_guard reg a with
    | error e => rw [hg] at h; cases h
    | ok g =>
      rw [hg] at h
      simp only [] at h
      by_cases hga : (g ctx).1 = true
      · rw [if_pos hga] at h
        rcases List.mem_cons.mp hk with rfl | hk'
        · exact ⟨g, hg, hga⟩
        · exact ih r0 h k hk'
      · rw [if_neg hga] at h
        cases h

/-- C1: a `transition` call reports `success = true` only when a
definition matches the passed order's status and the requested target,
and every guard key of that definition resolves and allows on the
call's context. -/
theorem c1_success_requires_definition_and_guards
    (table : List Transition) (greg : GuardReg) (ereg : EffectReg) (db : DB)
    (order : OrderRec) (to_state : String) (au : Option Actor) (al nt : String)
    (ps : Params) (ik : Option String) (dr : Bool) (r : TransitionResult)
    (hok : (transition table greg ereg db order to_state au al nt ps ik dr).outcome = .ok r)
    (hs : r.success = true) :
    ∃ t, select_transition table order.status to_state = some t ∧
      order.status ∈ t.from_states ∧ t.to_state = to_state ∧
      ∀ k ∈ t.guards, ∃ g, get_guard greg k = .ok g ∧
        (g { order := order, actor_user := au, actor_label := al, note := nt, params := ps,
             idempotency_key := ik, dry_run := dr }).1 = true := by
  unfold transition at hok
  cases hsel : select_transition table order.status to_state with
  | none =>
    rw [hsel] at hok
    simp only [Except.ok.injEq] at hok
    rw [← hok] at hs
    cases hs
  | some t =>
    rw [hsel] at hok
    simp only [] at hok
    rcases select_transition_is_match table order.status to_state t hsel with ⟨hmem, hto⟩
    cases hev : evaluate_guards greg t
        { order := order, actor_user := au, actor_label := al, note := nt, params := ps,
          idempotency_key := ik, dry_run := dr } with
    | error e => rw [hev] at hok; cases hok
    | ok pr =>
      rw [hev] at hok
      match pr with
      | (false, reason) =>
        simp only [Except.ok.injEq] at hok
        rw [← hok] at hs
        cases hs
      | (true, r0) =>
        exact ⟨t, rfl, hmem, hto, evaluate_guards_list_all_pass greg _ t.guards r0 hev⟩

/-- Witness for C1: a concrete dry-run success from `pending` to `paid`,
with the definition and guard facts obtained through the theorem. -/
theorem c1_success_requires_definition_and_guards_witness :
    (transition TRANSITIONS builtinGuards builtinEffects db0 { pk := 1, status := "pending" }
        "paid" (some adminActor) "" "" {} none true).outcome =
      .ok { success := true, from_state := "pending", to_state := some "paid",
            messages := [msg_dry_run "pending" "paid" "mark_paid"] } ∧
    ∃ t, select_transition TRANSITIONS "pending" "paid" = some t ∧
      "pending" ∈ t.from_states ∧ t.to_state = "paid" ∧
      ∀ k ∈ t.guards, ∃ g, get_guard builtinGuards k = .ok g ∧
        (g { order := { pk := 1, status := "pending" }, actor_user := some adminActor,
             actor_label := "", note := "", params := {}, idempotency_key := none,
             dry_run := true }).1 = true :=
  ⟨rfl,
   c1_success_requires_definition_and_guards TRANSITIONS builtinGuards builtinEffects db0
     { pk := 1, status := "pending" } "paid" (some adminActor) "" "" {} none true _ rfl rfl⟩

/-- C5: a `dryRun = true` call never reaches the lock, leaves the
database (order rows and audit log) untouched, and invokes no effect,
whatever it reports. -/
theorem c5_dry_run_is_pure
    (table : List Transition) (greg : GuardReg) (ereg : EffectReg) (db : DB)
    (order : OrderRec) (to_state : String) (au : Option Actor) (al nt : String)
    (ps : Params) (ik : Option String) :
    (transition table greg ereg db order to_state au al nt ps ik true).db = db ∧
    (transition table greg ereg db order to_state au al nt ps ik true).lock_taken = false ∧
    (transition table greg ereg db order to_state au al nt ps ik true).effects_run = [] := by
  unfold transition
  cases select_transition table order.status to_state with
  | none => exact ⟨rfl, rfl, rfl⟩
  | some t =>
    simp only []
    cases evaluate_guards greg t
        { order := order, actor_user := au, actor_label := al, note := nt, params := ps,
          idempotency_key := ik, dry_run := true } with
    | error e => exact ⟨rfl, rfl, rfl⟩
    | ok pr =>
      match pr with
      | (false, reason) => exact ⟨rfl, rfl, rfl⟩
      | (true, r0) => exact ⟨rfl, rfl, rfl⟩

/-- C6: `cancelled`, `refunded` and `returned` appear in no definition's
source set, so from such a status `can_transition` reports not-allowed
for every target, and `transition` fails with the undefined-transition
error, touching nothing. -/
theorem c6_terminal_states_have_no_outgoing
    (s : String) (hs : s ∈ ["cancelled", "refunded", "returned"])
    (to_state : String) (greg : GuardReg) (ereg : EffectReg) (db : DB) (pk : Nat)
    (ctx : TransitionContext) (au : Option Actor) (al nt : String) (ps : Params)
    (ik : Option String) (dr : Bool) :
    (TRANSITIONS.all fun t => !(t.from_states.contains s)) = true ∧
    can_transition TRANSITIONS greg { pk := pk, status := s } to_state ctx =
      .ok { transition := { name := pseudo_to_name to_state, from_states := [s],
                            to_state := to_state },
            allowed := false, reason := some (msg_not_defined s to_state) } ∧
    transition TRANSITIONS greg ereg db { pk := pk, status := s } to_state au al nt ps ik dr =
      { outcome := .ok { success := false, from_state := s, to_state := none,
                         errors := [msg_no_transition s to_state] },
        db := db, lock_taken := false, effects_run := [] } := by
  have hall : (TRANSITIONS.all fun t => !(t.from_states.contains s)) = true := by
    simp only [List.mem_cons, List.not_mem_nil, or_false] at hs
    rcases hs with rfl | rfl | rfl
    · decide
    · decide
    · decide
  have hsel : select_transition TRANSITIONS s to_state = none := by
    apply select_transition_eq_none
    intro t ht
    have := List.all_eq_true.mp hall t ht
    simpa using this
  refine ⟨hall, ?_, ?_⟩
  · rw [can_transition]
    simp only [hsel]
  · rw [transition]
    simp only [hsel]

/-- Witness for C6: the terminal status `cancelled` with target `paid`. -/
theorem c6_terminal_states_have_no_outgoing_witness :
    (TRANSITIONS.all fun t => !(t.from_states.contains "cancelled")) = true ∧
    can_transition TRANSITIONS builtinGuards { pk := 1, status := "cancelled" } "paid"
        { order := { pk := 1, status := "cancelled" } } =
      .ok { transition := { name := pseudo_to_name "paid", from_states := ["cancelled"],
                            to_state := "paid" },
            allowed := false, reason := some (msg_not_defined "cancelled" "paid") } ∧
    transition TRANSITIONS builtinGuards builtinEffects db0 { pk := 1, status := "cancelled" }
        "paid" (some adminActor) "" "" {} none false =
      { outcome := .ok { success := false, from_state := "cancelled", to_state := none,
                         errors := [msg_no_transition "cancelled" "paid"] },
        db := db0, lock_taken := false, effects_run := [] } :=
  c6_terminal_states_have_no_outgoing "cancelled" (by decide) "paid" builtinGuards
    builtinEffects db0 1 { order := { pk := 1, status := "cancelled" } } (some adminActor)
    "" "" {} none false

/-- C8: for both registries, `register` fails with the duplicate-key
error exactly when the key is already present (and otherwise records the
mapping), and `get` fails with the unknown-key error exactly when the
key is absent (and otherwise returns the registered callable). -/
theorem c8_registry_contract
    (greg : GuardReg) (ereg : EffectReg) (k : String) (f : GuardFn) (u : EffectFn) :
    (register_guard greg k f = .error (.duplicate_guard k) ↔ (regFind greg k).isSome = true) ∧
    ((regFind greg k).isSome = false → register_guard greg k f = .ok ((k, f) :: greg)) ∧
    (get_guard greg k = .error (.unknown_guard k) ↔ regFind greg k = none) ∧
    (∀ g, regFind greg k = some g → get_guard greg k = .ok g) ∧
    (register_effect ereg k u = .error (.duplicate_effect k) ↔ (regFind ereg k).isSome = true) ∧
    ((regFind ereg k).isSome = false → register_effect ereg k u = .ok ((k, u) :: ereg)) ∧
    (get_effect ereg k = .error (.unknown_effect k) ↔ regFind ereg k = none) ∧
    (∀ g, regFind ereg k = some g → get_effect ereg k = .ok g) := by
  refine ⟨?_, ?_, ?_, ?_, ?_, ?_, ?_, ?_⟩
  · cases h : (regFind greg k).isSome <;> simp [register_guard, h]
  · intro h; simp [register_guard, h]
  · cases h : regFind greg k <;> simp [get_guard, h]
  · intro g h; simp [get_guard, h]
  · cases h : (regFind ereg k).isSome <;> simp [register_effect, h]
  · intro h; simp [register_effect, h]
  · cases h : regFind ereg k <;> simp [get_effect, h]
  · intro g h; simp [get_effect, h]

/-- Witness for C8: registering a fresh key succeeds and records it,
re-registering an existing key fails, lookups behave accordingly. -/
theorem c8_registry_contract_witness :
    register_guard [] "role_allowed" guard_role_allowed =
      .ok [("role_allowed", guard_role_allowed)] ∧
    register_effect builtinEffects "send_email" () = .error (.duplicate_effect "send_email") ∧
    get_effect builtinEffects "send_email" = .ok () ∧
    get_guard [] "nope" = .error (.unknown_guard "nope") :=
  ⟨(c8_registry_contract [] [] "role_allowed" guard_role_allowed ()).2.1 rfl,
   (c8_registry_contract builtinGuards builtinEffects "send_email" guard_role_allowed
       ()).2.2.2.2.1.mpr rfl,
   (c8_registry_contract builtinGuards builtinEffects "send_email" guard_role_allowed
       ()).2.2.2.2.2.2.2 () rfl,
   (c8_registry_contract [] [] "nope" guard_role_allowed ()).2.2.1.mpr rfl⟩

-- Facts about the falsy-string coalescing used in guard reporting.

theorem msg_guard_failed_ne_empty (k : String) : msg_guard_failed k ≠ "" := by
  intro h
  have h2 := congrArg String.length h
  rw [msg_guard_failed] at h2
  simp [String.length_append] at h2
  exact absurd h2.1.1 (by decide)

theorem coalesced_reason_ne_empty (r : Option String) (k : String) :
    pyOptStrOr r (msg_guard_failed k) ≠ "" := by
  cases r with
  | none => exact msg_guard_failed_ne_empty k
  | some s =>
    show pyStrOr s (msg_guard_failed k) ≠ ""
    rw [pyStrOr]
    by_cases hs : s = ""
    · rw [if_pos hs]; exact msg_guard_failed_ne_empty k
    · rw [if_neg hs]; exact hs

theorem pyOptStrOr_of_ne_empty (s d : String) (h : s ≠ "") : pyOptStrOr (some s) d = s := by
  rw [pyOptStrOr, pyStrOr, if_neg h]

/-- C7 (amended): with guard list `[A, B]` and `A` failing, evaluation
stops at `A` (the outcome does not depend on what — if anything — is
registered under `B`), the reported reason is `A`'s reason, and when `A`
gives no (or an empty) reason the fallback is `"Guard failed: <A>"`, not
the generic blocked-by-guard message. -/
theorem c7_first_failing_guard_short_circuits
    (table : List Transition) (greg greg' : GuardReg) (ereg : EffectReg) (db : DB)
    (order : OrderRec) (to_state : String) (au : Option Actor) (al nt : String) (ps : Params)
    (ik : Option String) (dr : Bool) (a b : String) (fA : GuardFn) (r : Option String)
    (d : Transition)
    (hsel : select_transition table order.status to_state = some d)
    (hg : d.guards = [a, b])
    (hA : get_guard greg a = .ok fA)
    (hA' : get_guard greg' a = .ok fA)
    (hfail : fA { order := order, actor_user := au, actor_label := al, note := nt, params := ps,
                  idempotency_key := ik, dry_run := dr } = (false, r)) :
    evaluate_guards greg d
        { order := order, actor_user := au, actor_label := al, note := nt, params := ps,
          idempotency_key := ik, dry_run := dr } =
      .ok (false, some (pyOptStrOr r (msg_guard_failed a))) ∧
    evaluate_guards greg d
        { order := order, actor_user := au, actor_label := al, note := nt, params := ps,
          idempotency_key := ik, dry_run := dr } =
      evaluate_guards greg' d
        { order := order, actor_user := au, actor_label := al, note := nt, params := ps,
          idempotency_key := ik, dry_run := dr } ∧
    transition table greg ereg db order to_state au al nt ps ik dr =
      { outcome := .ok { success := false, from_state := order.status, to_state := none,
                         errors := [pyOptStrOr r (msg_guard_failed a)] },
        db := db, lock_taken := false, effects_run := [] } := by
  have heval : ∀ (reg : GuardReg), get_guard reg a = .ok fA →
      evaluate_guards reg d
        { order := order, actor_user := au, actor_label := al, note := nt, params := ps,
          idempotency_key := ik, dry_run := dr } =
      .ok (false, some (pyOptStrOr r (msg_guard_failed a))) := by
    intro reg hreg
    rw [evaluate_guards, hg]
    unfold evaluate_guards_list
    rw [hreg]
    simp [hfail]
  refine ⟨heval greg hA, by rw [heval greg hA, heval greg' hA'], ?_⟩
  rw [transition, hsel]
  simp only [heval greg hA]
  rw [pyOptStrOr_of_ne_empty _ _ (coalesced_reason_ne_empty r a)]

/-- Fixture for the C7 counterexample: a two-guard definition whose
first guard rejects without giving a reason. -/
def guardsT7 : List Transition :=
  [{ name := "t", from_states := ["pending"], to_state := "paid", guards := ["gA", "gB"] }]

/-- Fixture guard registry: `gA` rejects with no reason, `gB` allows. -/
def guardRegRejectNoReason : GuardReg :=
  [("gA", fun _ => (false, none)), ("gB", fun _ => (true, none))]

/-- Counterexample for C7 as stated: when the failing guard supplies no
reason, the reported error is `"Guard failed: gA"`, not the generic
`"Transition blocked by guard"` message the claim announces (that string
is dead code on this path). -/
theorem c7_counterexample_generic_message_not_used :
    (transition guardsT7 guardRegRejectNoReason [] db0 { pk := 1, status := "pending" } "paid"
        none "" "" {} none false).outcome =
      .ok { success := false, from_state := "pending", to_state := none,
            errors := [msg_guard_failed "gA"] } ∧
    msg_guard_failed "gA" ≠ msg_blocked :=
  ⟨rfl, by decide⟩

/-- Witness for C7: a concrete instantiation of the amended theorem with
a reason-less first guard and two registries that differ at `gB`. -/
theorem c7_first_failing_guard_short_circuits_witness :
    evaluate_guards guardRegRejectNoReason (guardsT7.get ⟨0, by decide⟩)
        { order := { pk := 1, status := "pending" } } =
      .ok (false, some (pyOptStrOr none (msg_guard_failed "gA"))) ∧
    evaluate_guards guardRegRejectNoReason (guardsT7.get ⟨0, by decide⟩)
        { order := { pk := 1, status := "pending" } } =
      evaluate_guards [("gA", fun _ => (false, none))] (guardsT7.get ⟨0, by decide⟩)
        { order := { pk := 1, status := "pending" } } ∧
    transition guardsT7 guardRegRejectNoReason [] db0 { pk := 1, status := "pending" } "paid"
        none "" "" {} none false =
      { outcome := .ok { success := false, from_state := "pending", to_state := none,
                         errors := [pyOptStrOr none (msg_guard_failed "gA")] },
        db := db0, lock_taken := false, effects_run := [] } :=
  c7_first_failing_guard_short_circuits guardsT7 guardRegRejectNoReason
    [("gA", fun _ => (false, none))] [] db0 { pk := 1, status := "pending" } "paid"
    none "" "" {} none false "gA" "gB" (fun _ => (false, none)) none
    (guardsT7.get ⟨0, by decide⟩) rfl rfl rfl rfl rfl

/-- C3 (amended): when the optimistic phase passed but the freshly read
locked status no longer selects a definition for the target, and no
stored idempotency entry preempts (no key, or no audit entry of this
order carries it), `transition` fails with the concurrent-state-change
error, reporting the locked status and no target, and writes nothing. -/
theorem c3_concurrent_change_fails_cleanly
    (table : List Transition) (greg : GuardReg) (ereg : EffectReg) (db : DB)
    (order : OrderRec) (to_state : String) (au : Option Actor) (al nt : String) (ps : Params)
    (ik : Option String) (d : Transition) (r0 : Option String) (locked : OrderRec)
    (hsel : select_transition table order.status to_state = some d)
    (hev : evaluate_guards greg d
        { order := order, actor_user := au, actor_label := al, note := nt, params := ps,
          idempotency_key := ik, dry_run := false } = .ok (true, r0))
    (hlock : db.getOrder order.pk = some locked)
    (hidem : idem_lookup db locked.pk ik = none)
    (hsel2 : select_transition table locked.status to_state = none) :
    transition table greg ereg db order to_state au al nt ps ik false =
      { outcome := .ok { success := false, from_state := locked.status, to_state := none,
                         errors := [msg_concurrent locked.status to_state] },
        db := db, lock_taken := true, effects_run := [] } := by
  rw [transition, hsel]
  simp only [hev, hlock, hidem, hsel2, Bool.false_eq_true, if_false]

/-- Fixture: a one-definition table `pending → paid` with no guards. -/
def raceTable : List Transition :=
  [{ name := "t", from_states := ["pending"], to_state := "paid" }]

/-- Fixture: the stored order was concurrently moved to `cancelled`, and
an audit entry of the SAME order already carries key `"k1"`. -/
def dbRaceReplay : DB :=
  { orders := [{ pk := 1, status := "cancelled" }],
    logs := [{ id := 7, order_pk := 1, from_state := "pending", to_state := "paid",
               actor_user := none, actor_label := "", note := "", meta_transition := "t",
               meta_params := {}, meta_effects := [], idempotency_key := some "k1" }],
    next_log_id := 8 }

/-- Counterexample for C3 as stated: the stored status (`cancelled`) no
longer selects a definition for the target — the claim's premise — yet
the call returns an idempotent-replay success, not the
concurrent-state-change failure, because the idempotency check runs
before the under-lock re-validation. -/
theorem c3_counterexample_replay_preempts_race_error :
    select_transition raceTable "cancelled" "paid" = none ∧
    (transition raceTable [] [] dbRaceReplay { pk := 1, status := "pending" } "paid" none "" ""
        {} (some "k1") false).outcome =
      .ok { success := true, from_state := "pending", to_state := some "paid",
            messages := [msg_idempotent], idempotent := true, log_id := some 7 } :=
  ⟨rfl, rfl⟩

/-- Fixture: same concurrent move to `cancelled`, but an empty audit log. -/
def dbRaceClean : DB :=
  { orders := [{ pk := 1, status := "cancelled" }], logs := [], next_log_id := 1 }

/-- Witness for C3: the concrete race with no idempotency entry ends in
the concurrent-state-change failure and leaves the database unchanged. -/
theorem c3_concurrent_change_fails_cleanly_witness :
    transition raceTable [] [] dbRaceClean { pk := 1, status := "pending" } "paid" none "" "" {}
        (some "k9") false =
      { outcome := .ok { success := false, from_state := "cancelled", to_state := none,
                         errors := [msg_concurrent "cancelled" "paid"] },
        db := dbRaceClean, lock_taken := true, effects_run := [] } :=
  c3_concurrent_change_fails_cleanly raceTable [] [] dbRaceClean { pk := 1, status := "pending" }
    "paid" none "" "" {} (some "k9") (raceTable.get ⟨0, by decide⟩) none
    { pk := 1, status := "cancelled" } rfl rfl rfl rfl rfl

/-- Fixture: key `"k1"` already present in the log, but on order 2; the
call will be made for order 1, whose own log is empty. -/
def dbForeignKey : DB :=
  { orders := [{ pk := 1, status := "pending" }],
    logs := [{ id := 7, order_pk := 2, from_state := "pending", to_state := "paid",
               actor_user := none, actor_label := "", note := "", meta_transition := "mark_paid",
               meta_params := {}, meta_effects := [], idempotency_key := some "k1" }],
    next_log_id := 8 }

/-- C4: the audit insert is a bare `create` with no conflict handling:
when the unique constraint on the idempotency key fires, the
`IntegrityError` escapes `transition` (rolling the atomic block back)
instead of being converted into an idempotent-replay success. -/
theorem c4_duplicate_key_insert_surfaces_integrity_error :
    transition TRANSITIONS builtinGuards builtinEffects dbForeignKey
        { pk := 1, status := "pending" } "paid" (some adminActor) "" "" {} (some "k1") false =
      { outcome := .error .integrity_error, db := dbForeignKey, lock_taken := true,
        effects_run := ["capture_payment", "reserve_inventory", "send_email", "emit_webhook"] } :=
  rfl

/-- `idem_lookup` misses when no entry of THIS order carries the key
(entries of other orders are invisible to the check). -/
theorem idem_lookup_eq_none_of_no_same_order_entry (db : DB) (pk : Nat) (k : String)
    (hsame : ∀ l ∈ db.logs, ¬(l.order_pk = pk ∧ l.idempotency_key = some k)) :
    idem_lookup db pk (some k) = none := by
  rw [idem_lookup]
  by_cases hk : pyKeyTruthy (some k) = true
  · rw [if_pos hk, List.find?_eq_none]
    intro l hl hp
    rw [Bool.and_eq_true] at hp
    exact hsame l hl ⟨by simpa using hp.1, by simpa using hp.2⟩
  · rw [if_neg hk]

/-- C10 (amended): when the supplied key appears in the audit log only
on entries of a different order, the call is NOT reported as an
idempotent replay and proceeds past the check to a fresh execution — but
the audit insert then violates the log-wide unique constraint, so the
call surfaces the storage error, the atomic block rolls back, and no new
entry (and no status change) persists; only the external effects have
already run. -/
theorem c10_idempotency_check_is_per_order
    (table : List Transition) (greg : GuardReg) (ereg : EffectReg) (db : DB)
    (order : OrderRec) (to_state : String) (au : Option Actor) (al nt : String) (ps : Params)
    (k : String) (d d2 : Transition) (r0 : Option String) (locked : OrderRec)
    (msgs ran : List String)
    (hsel : select_transition table order.status to_state = some d)
    (hev : evaluate_guards greg d
        { order := order, actor_user := au, actor_label := al, note := nt, params := ps,
          idempotency_key := some k, dry_run := false } = .ok (true, r0))
    (hlock : db.getOrder order.pk = some locked)
    (hsame : ∀ l ∈ db.logs, ¬(l.order_pk = locked.pk ∧ l.idempotency_key = some k))
    (hother : (db.logs.any fun l => l.idempotency_key == some k) = true)
    (hsel2 : select_transition table locked.status to_state = some d2)
    (heff : run_effects ereg d2.effects = .ok (msgs, ran)) :
    transition table greg ereg db order to_state au al nt ps (some k) false =
      { outcome := .error .integrity_error, db := db, lock_taken := true,
        effects_run := ran } := by
  have hidem := idem_lookup_eq_none_of_no_same_order_entry db locked.pk k hsame
  have hc : has_conflict (DB.setStatus db locked.pk to_state).logs (some k) = true := hother
  rw [transition, hsel]
  simp only [hev, hlock, hidem, hsel2, heff, hc, Bool.false_eq_true, if_false, if_true]

/-- Fixture for the C10 counterexample: key `"k2"` present only on an
entry of order 4; the call is for order 3. -/
def dbForeignKey2 : DB :=
  { orders := [{ pk := 3, status := "pending" }],
    logs := [{ id := 9, order_pk := 4, from_state := "pending", to_state := "paid",
               actor_user := none, actor_label := "", note := "", meta_transition := "mark_paid",
               meta_params := {}, meta_effects := [], idempotency_key := some "k2" }],
    next_log_id := 10 }

/-- Counterexample for C10 as stated: the key exists (on another order),
the call is indeed not treated as a replay — but no "new audit insert"
happens: the call raises the storage integrity error and the database
(including the audit log) is left exactly as before. -/
theorem c10_counterexample_insert_fails_on_global_constraint :
    (dbForeignKey2.logs.any fun l => l.idempotency_key == some "k2") = true ∧
    (dbForeignKey2.logs.all fun l => !(l.order_pk == 3)) = true ∧
    (transition TRANSITIONS builtinGuards builtinEffects dbForeignKey2
        { pk := 3, status := "pending" } "paid" (some adminActor) "" "" {} (some "k2")
        false).outcome = .error .integrity_error ∧
    (transition TRANSITIONS builtinGuards builtinEffects dbForeignKey2
        { pk := 3, status := "pending" } "paid" (some adminActor) "" "" {} (some "k2")
        false).db = dbForeignKey2 :=
  ⟨rfl, rfl, rfl, rfl⟩

/-- Witness for C10 (amended) at the foreign-key fixture. -/
theorem c10_idempotency_check_is_per_order_witness :
    transition TRANSITIONS builtinGuards builtinEffects dbForeignKey
        { pk := 1, status := "pending" } "paid" (some adminActor) "" "" {} (some "k1") false =
      { outcome := .error .integrity_error, db := dbForeignKey, lock_taken := true,
        effects_run := ["capture_payment", "reserve_inventory", "send_email", "emit_webhook"] } :=
  c10_idempotency_check_is_per_order TRANSITIONS builtinGuards builtinEffects dbForeignKey
    { pk := 1, status := "pending" } "paid" (some adminActor) "" "" {} "k1"
    (TRANSITIONS.get ⟨0, by decide⟩) (TRANSITIONS.get ⟨0, by decide⟩) none
    { pk := 1, status := "pending" }
    (["effect:capture_payment:ok", "effect:reserve_inventory:ok", "effect:send_email:ok",
      "effect:emit_webhook:ok"])
    (["capture_payment", "reserve_inventory", "send_email", "emit_webhook"])
    rfl rfl rfl (by decide) rfl rfl rfl

-- Row-lookup helper lemmas for the replay proof.

theorem getOrder_pk (db : DB) (pk : Nat) (o : OrderRec) (h : db.getOrder pk = some o) :
    o.pk = pk := by
  have := List.find?_some h
  simpa using this

theorem find?_cons_pos (p : α → Bool) (a : α) (l : List α) (h : p a = true) :
    (a :: l).find? p = some a := by
  simp [List.find?, h]

theorem find?_cons_neg (p : α → Bool) (a : α) (l : List α) (h : p a = false) :
    (a :: l).find? p = l.find? p := by
  simp [List.find?, h]

theorem find?_map_setStatus (l : List OrderRec) (pk : Nat) (s : String) (o : OrderRec)
    (h : l.find? (fun x => x.pk == pk) = some o) :
    (l.map (fun x => if x.pk == pk then { x with status := s } else x)).find?
      (fun x => x.pk == pk) = some { o with status := s } := by
  induction l with
  | nil => cases h
  | cons a l ih =>
    cases ha : (a.pk == pk) with
    | true =>
      rw [find?_cons_pos (fun x : OrderRec => x.pk == pk) a l ha] at h
      injection h with h
      subst h
      simp only [List.map_cons]
      rw [if_pos ha]
      exact find?_cons_pos (fun x : OrderRec => x.pk == pk) _ _ ha
    | false =>
      rw [find?_cons_neg (fun x : OrderRec => x.pk == pk) a l ha] at h
      simp only [List.map_cons]
      rw [if_neg (by simp [ha])]
      rw [find?_cons_neg (fun x : OrderRec => x.pk == pk) a _ ha]
      exact ih h

theorem getOrder_setStatus (db : DB) (pk : Nat) (s : String) (o : OrderRec)
    (h : db.getOrder pk = some o) :
    (db.setStatus pk s).getOrder pk = some { o with status := s } :=
  find?_map_setStatus db.orders pk s o h

/-- C2 (amended): with a non-null, non-empty key, a first successful
real execution (no audit entry anywhere carries the key yet) reports
`idempotent = false` and appends exactly one audit entry carrying the
key; repeating the very same call (same order snapshot, same context,
same key) then replays idempotently — success, `idempotent = true`, the
recorded from/to states and stored audit id, no mutation, no effect, no
new entry — and iterating the repeat any number of times never changes
the database again. -/
theorem c2_idempotent_replay_same_arguments
    (table : List Transition) (greg : GuardReg) (ereg : EffectReg) (db : DB)
    (order : OrderRec) (to_state : String) (au : Option Actor) (al nt : String) (ps : Params)
    (k : String) (d d2 : Transition) (r0 : Option String) (locked : OrderRec)
    (msgs ran : List String)
    (hk : (k == "") = false)
    (hsel : select_transition table order.status to_state = some d)
    (hev : evaluate_guards greg d
        { order := order, actor_user := au, actor_label := al, note := nt, params := ps,
          idempotency_key := some k, dry_run := false } = .ok (true, r0))
    (hlock : db.getOrder order.pk = some locked)
    (hfresh : (db.logs.all fun l => !(l.idempotency_key == some k)) = true)
    (hsel2 : select_transition table locked.status to_state = some d2)
    (heff : run_effects ereg d2.effects = .ok (msgs, ran)) :
    transition table greg ereg db order to_state au al nt ps (some k) false =
      { outcome := .ok { success := true, from_state := locked.status,
                         to_state := some to_state,
                         messages := msg_success locked.status to_state d2.name :: msgs,
                         errors := [], idempotent := false, log_id := some db.next_log_id },
        db := { orders := (db.setStatus locked.pk to_state).orders,
                logs := { id := db.next_log_id, order_pk := locked.pk,
                          from_state := locked.status, to_state := to_state,
                          actor_user := actor_ref au,
                          actor_label := pyStrOr al (actor_name au), note := nt,
                          meta_transition := d2.name, meta_params := ps,
                          meta_effects := msgs, idempotency_key := some k } :: db.logs,
                next_log_id := db.next_log_id + 1 },
        lock_taken := true, effects_run := ran } ∧
    ((transition table greg ereg db order to_state au al nt ps (some k) false).db.logs.countP
      fun l => l.idempotency_key == some k) = 1 ∧
    transition table greg ereg
        (transition table greg ereg db order to_state au al nt ps (some k) false).db
        order to_state au al nt ps (some k) false =
      { outcome := .ok { success := true, from_state := locked.status,
                         to_state := some to_state, messages := [msg_idempotent], errors := [],
                         idempotent := true, log_id := some db.next_log_id },
        db := (transition table greg ereg db order to_state au al nt ps (some k) false).db,
        lock_taken := true, effects_run := [] } ∧
    ∀ n : Nat,
      (fun d' => (transition table greg ereg d' order to_state au al nt ps (some k) false).db)^[n]
        (transition table greg ereg db order to_state au al nt ps (some k) false).db =
      (transition table greg ereg db order to_state au al nt ps (some k) false).db := by
  have hpk : locked.pk = order.pk := getOrder_pk db order.pk locked hlock
  have hidem1 : idem_lookup db locked.pk (some k) = none := by
    apply idem_lookup_eq_none_of_no_same_order_entry
    intro l hl hc
    have h2 := List.all_eq_true.mp hfresh l hl
    rw [hc.2] at h2
    simp at h2
  have hnoconf : has_conflict (DB.setStatus db locked.pk to_state).logs (some k) = false := by
    show db.logs.any (fun l => l.idempotency_key == some k) = false
    rw [List.any_eq_false]
    intro l hl
    have h2 := List.all_eq_true.mp hfresh l hl
    simpa using h2
  have hcall1 : transition table greg ereg db order to_state au al nt ps (some k) false =
      { outcome := .ok { success := true, from_state := locked.status,
                         to_state := some to_state,
                         messages := msg_success locked.status to_state d2.name :: msgs,
                         errors := [], idempotent := false, log_id := some db.next_log_id },
        db := { orders := (db.setStatus locked.pk to_state).orders,
                logs := { id := db.next_log_id, order_pk := locked.pk,
                          from_state := locked.status, to_state := to_state,
                          actor_user := actor_ref au,
                          actor_label := pyStrOr al (actor_name au), note := nt,
                          meta_transition := d2.name, meta_params := ps,
                          meta_effects := msgs, idempotency_key := some k } :: db.logs,
                next_log_id := db.next_log_id + 1 },
        lock_taken := true, effects_run := ran } := by
    rw [transition, hsel]
    simp only [hev, hlock, hidem1, hsel2, heff, hnoconf, Bool.false_eq_true, if_false]
    rfl
  have hzero : db.logs.countP (fun l => l.idempotency_key == some k) = 0 :=
    List.countP_eq_zero.mpr (fun l hl => by simpa using List.all_eq_true.mp hfresh l hl)
  have hlock2 : DB.getOrder
      { orders := (db.setStatus locked.pk to_state).orders,
        logs := { id := db.next_log_id, order_pk := locked.pk,
                  from_state := locked.status, to_state := to_state,
                  actor_user := actor_ref au,
                  actor_label := pyStrOr al (actor_name au), note := nt,
                  meta_transition := d2.name, meta_params := ps,
                  meta_effects := msgs, idempotency_key := some k } :: db.logs,
        next_log_id := db.next_log_id + 1 } order.pk =
      some { locked with status := to_state } := by
    show (db.setStatus locked.pk to_state).getOrder order.pk = some { locked with status := to_state }
    conv_lhs => rw [hpk]
    exact getOrder_setStatus db order.pk to_state locked hlock
  have hcall2 : transition table greg ereg
      (transition table greg ereg db order to_state au al nt ps (some k) false).db
      order to_state au al nt ps (some k) false =
      { outcome := .ok { success := true, from_state := locked.status,
                         to_state := some to_state, messages := [msg_idempotent], errors := [],
                         idempotent := true, log_id := some db.next_log_id },
        db := (transition table greg ereg db order to_state au al nt ps (some k) false).db,
        lock_taken := true, effects_run := [] } := by
    rw [hcall1]
    simp only []
    have hidem2 : idem_lookup
        { orders := (db.setStatus locked.pk to_state).orders,
          logs := { id := db.next_log_id, order_pk := locked.pk,
                    from_state := locked.status, to_state := to_state,
                    actor_user := actor_ref au,
                    actor_label := pyStrOr al (actor_name au), note := nt,
                    meta_transition := d2.name, meta_params := ps,
                    meta_effects := msgs, idempotency_key := some k } :: db.logs,
          next_log_id := db.next_log_id + 1 }
        (OrderRec.pk { locked with status := to_state }) (some k) =
        some { id := db.next_log_id, order_pk := locked.pk,
               from_state := locked.status, to_state := to_state,
               actor_user := actor_ref au,
               actor_label := pyStrOr al (actor_name au), note := nt,
               meta_transition := d2.name, meta_params := ps,
               meta_effects := msgs, idempotency_key := some k } := by
      rw [idem_lookup]
      have ht : pyKeyTruthy (some k) = true := by simp [pyKeyTruthy, hk]
      rw [if_pos ht]
      apply find?_cons_pos
      simp
    rw [transition, hsel]
    simp only [hev, hlock2, hidem2, Bool.false_eq_true, if_false]
  refine ⟨hcall1, ?_, hcall2, ?_⟩
  · rw [hcall1]
    simp only []
    rw [List.countP_cons, hzero]
    simp
  · intro n
    induction n with
    | zero => rfl
    | succ n ih =>
      rw [Function.iterate_succ_apply', ih]
      show (transition table greg ereg
        (transition table greg ereg db order to_state au al nt ps (some k) false).db
        order to_state au al nt ps (some k) false).db =
        (transition table greg ereg db order to_state au al nt ps (some k) false).db
      rw [hcall2]

/-- Witness for C2: first `pending → paid` call with key `"k1"` on a
fresh database, then the literally repeated call replaying. -/
theorem c2_idempotent_replay_same_arguments_witness :
    (("k1" == "") = false) ∧
    (db0.logs.all fun l => !(l.idempotency_key == some "k1")) = true ∧
    ((transition TRANSITIONS builtinGuards builtinEffects db0 { pk := 1, status := "pending" }
        "paid" (some adminActor) "" "" {} (some "k1") false).db.logs.countP
      fun l => l.idempotency_key == some "k1") = 1 ∧
    transition TRANSITIONS builtinGuards builtinEffects
        (transition TRANSITIONS builtinGuards builtinEffects db0 { pk := 1, status := "pending" }
          "paid" (some adminActor) "" "" {} (some "k1") false).db
        { pk := 1, status := "pending" } "paid" (some adminActor) "" "" {} (some "k1") false =
      { outcome := .ok { success := true, from_state := "pending", to_state := some "paid",
                         messages := [msg_idempotent], errors := [], idempotent := true,
                         log_id := some 1 },
        db := (transition TRANSITIONS builtinGuards builtinEffects db0
          { pk := 1, status := "pending" } "paid" (some adminActor) "" "" {} (some "k1")
          false).db,
        lock_taken := true, effects_run := [] } :=
  ⟨rfl, rfl,
   (c2_idempotent_replay_same_arguments TRANSITIONS builtinGuards builtinEffects db0
     { pk := 1, status := "pending" } "paid" (some adminActor) "" "" {} "k1"
     (TRANSITIONS.get ⟨0, by decide⟩) (TRANSITIONS.get ⟨0, by decide⟩) none
     { pk := 1, status := "pending" }
     ["effect:capture_payment:ok", "effect:reserve_inventory:ok", "effect:send_email:ok",
      "effect:emit_webhook:ok"]
     ["capture_payment", "reserve_inventory", "send_email", "emit_webhook"]
     rfl rfl rfl rfl rfl rfl rfl).2.1,
   (c2_idempotent_replay_same_arguments TRANSITIONS builtinGuards builtinEffects db0
     { pk := 1, status := "pending" } "paid" (some adminActor) "" "" {} "k1"
     (TRANSITIONS.get ⟨0, by decide⟩) (TRANSITIONS.get ⟨0, by decide⟩) none
     { pk := 1, status := "pending" }
     ["effect:capture_payment:ok", "effect:reserve_inventory:ok", "effect:send_email:ok",
      "effect:emit_webhook:ok"]
     ["capture_payment", "reserve_inventory", "send_email", "emit_webhook"]
     rfl rfl rfl rfl rfl rfl rfl).2.2.1⟩

/-- Counterexample for C2 as stated: after a first successful call with
key `"k1"`, a subsequent call on the same order that passes the freshly
re-read order row (status now `paid` — what any new request sees) fails
with the undefined-transition error before the idempotency check is ever
reached, instead of replaying idempotently. -/
theorem c2_counterexample_fresh_snapshot_retry :
    (transition TRANSITIONS builtinGuards builtinEffects db0 { pk := 1, status := "pending" }
        "paid" (some adminActor) "" "" {} (some "k1") false).outcome =
      .ok { success := true, from_state := "pending", to_state := some "paid",
            messages := [msg_success "pending" "paid" "mark_paid",
                         msg_effect_ok "capture_payment", msg_effect_ok "reserve_inventory",
                         msg_effect_ok "send_email", msg_effect_ok "emit_webhook"],
            errors := [], idempotent := false, log_id := some 1 } ∧
    DB.getOrder (transition TRANSITIONS builtinGuards builtinEffects db0
        { pk := 1, status := "pending" } "paid" (some adminActor) "" "" {} (some "k1")
        false).db 1 =
      some { pk := 1, status := "paid" } ∧
    (transition TRANSITIONS builtinGuards builtinEffects
        (transition TRANSITIONS builtinGuards builtinEffects db0 { pk := 1, status := "pending" }
          "paid" (some adminActor) "" "" {} (some "k1") false).db
        { pk := 1, status := "paid" } "paid" (some adminActor) "" "" {} (some "k1")
        false).outcome =
      .ok { success := false, from_state := "paid", to_state := none, messages := [],
            errors := [msg_no_transition "paid" "paid"], idempotent := false, log_id := none } :=
  ⟨rfl, rfl, rfl⟩

-- Relations for the permissions-noninterference analysis (C9).

/-- Two definitions that agree on everything except their
`permissions` list. -/
def perm_eq (t t' : Transition) : Prop :=
  t.name = t'.name ∧ t.from_states = t'.from_states ∧ t.to_state = t'.to_state ∧
  t.guards = t'.guards ∧ t.effects = t'.effects ∧ t.description = t'.description

theorem perm_eq_refl (t : Transition) : perm_eq t t :=
  ⟨rfl, rfl, rfl, rfl, rfl, rfl⟩

/-- Attempts that agree except for the `permissions` list embedded in
their definition. -/
def attempt_perm_eq (a a' : TransitionAttempt) : Prop :=
  perm_eq a.transition a'.transition ∧ a.allowed = a'.allowed ∧ a.reason = a'.reason

/-- Lifted to `can_transition` outcomes. -/
def except_attempt_rel :
    Except EngineError TransitionAttempt → Except EngineError TransitionAttempt → Prop
  | .error e, .error e' => e = e'
  | .ok a, .ok a' => attempt_perm_eq a a'
  | _, _ => False

/-- Lifted to `allowed_transitions` outcomes. -/
def except_attempts_rel :
    Except EngineError (List TransitionAttempt) → Except EngineError (List TransitionAttempt) →
    Prop
  | .error e, .error e' => e = e'
  | .ok l, .ok l' => List.Forall₂ attempt_perm_eq l l'
  | _, _ => False

theorem select_transition_rel (table table' : List Transition)
    (h : List.Forall₂ perm_eq table table') (f to_state : String) :
    (select_transition table f to_state = none ∧ select_transition table' f to_state = none) ∨
    ∃ t t', select_transition table f to_state = some t ∧
      select_transition table' f to_state = some t' ∧ perm_eq t t' := by
  induction h with
  | nil => exact .inl ⟨rfl, rfl⟩
  | @cons a a' l l' hrel hrest ih =>
    have hpred : (to_state == a'.to_state && a'.from_states.contains f) =
        (to_state == a.to_state && a.from_states.contains f) := by
      rw [hrel.2.2.1, hrel.2.1]
    cases hp : (to_state == a.to_state && a.from_states.contains f) with
    | true =>
      refine .inr ⟨a, a', ?_, ?_, hrel⟩
      · exact find?_cons_pos _ a l hp
      · exact find?_cons_pos _ a' l' (hpred.trans hp)
    | false =>
      have h1 : select_transition (a :: l) f to_state = select_transition l f to_state :=
        find?_cons_neg _ a l hp
      have h2 : select_transition (a' :: l') f to_state = select_transition l' f to_state :=
        find?_cons_neg _ a' l' (hpred.trans hp)
      rw [h1, h2]
      exact ih

theorem evaluate_guards_perm_eq (reg : GuardReg) (t t' : Transition) (ctx : TransitionContext)
    (h : perm_eq t t') : evaluate_guards reg t ctx = evaluate_guards reg t' ctx := by
  rw [evaluate_guards, evaluate_guards, h.2.2.2.1]

theorem transitions_for_state_rel (table table' : List Transition)
    (h : List.Forall₂ perm_eq table table') (s : String) :
    List.Forall₂ perm_eq (transitions_for_state table s) (transitions_for_state table' s) := by
  induction h with
  | nil => exact .nil
  | @cons a a' l l' hrel hrest ih =>
    have hpred : a'.from_states.contains s = a.from_states.contains s := by rw [hrel.2.1]
    cases hp : a.from_states.contains s with
    | true =>
      show List.Forall₂ perm_eq ((a :: l).filter _) ((a' :: l').filter _)
      rw [List.filter_cons, List.filter_cons, if_pos hp, if_pos (hpred.trans hp)]
      exact .cons hrel ih
    | false =>
      show List.Forall₂ perm_eq ((a :: l).filter _) ((a' :: l').filter _)
      rw [List.filter_cons, List.filter_cons, if_neg (by rw [hp]; simp),
        if_neg (by rw [hpred, hp]; simp)]
      exact ih

theorem transition_perm_eq
    (table table' : List Transition) (h : List.Forall₂ perm_eq table table')
    (greg : GuardReg) (ereg : EffectReg) (db : DB) (order : OrderRec) (to_state : String)
    (au : Option Actor) (al nt : String) (ps : Params) (ik : Option String) (dr : Bool) :
    transition table greg ereg db order to_state au al nt ps ik dr =
      transition table' greg ereg db order to_state au al nt ps ik dr := by
  rcases select_transition_rel table table' h order.status to_state with
    ⟨h1, h2⟩ | ⟨t, t', h1, h2, htt⟩
  · rw [transition, transition, h1, h2]
  · rw [transition, transition, h1, h2]
    simp only []
    have hev : evaluate_guards greg t'
        { order := order, actor_user := au, actor_label := al, note := nt, params := ps,
          idempotency_key := ik, dry_run := dr } =
        evaluate_guards greg t
        { order := order, actor_user := au, actor_label := al, note := nt, params := ps,
          idempotency_key := ik, dry_run := dr } :=
      (evaluate_guards_perm_eq greg t t' _ htt).symm
    rw [hev]
    cases hevv : evaluate_guards greg t
        { order := order, actor_user := au, actor_label := al, note := nt, params := ps,
          idempotency_key := ik, dry_run := dr } with
    | error e => rfl
    | ok pr =>
      match pr with
      | (false, r) => rfl
      | (true, r) =>
        simp only []
        cases dr with
        | true =>
          simp only [if_true]
          rw [htt.1]
        | false =>
          simp only [Bool.false_eq_true, if_false]
          cases hg : db.getOrder order.pk with
          | none => rfl
          | some locked =>
            simp only []
            cases hi : idem_lookup db locked.pk ik with
            | some log => rfl
            | none =>
              simp only []
              rcases select_transition_rel table table' h locked.status to_state with
                ⟨g1, g2⟩ | ⟨d, d', g1, g2, hdd⟩
              · rw [g1, g2]
              · rw [g1, g2]
                simp only []
                rw [← hdd.2.2.2.2.1, ← hdd.1]

theorem can_transition_perm_eq
    (table table' : List Transition) (h : List.Forall₂ perm_eq table table')
    (greg : GuardReg) (order : OrderRec) (to_state : String) (ctx : TransitionContext) :
    except_attempt_rel (can_transition table greg order to_state ctx)
      (can_transition table' greg order to_state ctx) := by
  rcases select_transition_rel table table' h order.status to_state with
    ⟨h1, h2⟩ | ⟨t, t', h1, h2, htt⟩
  · rw [can_transition, can_transition, h1, h2]
    exact ⟨perm_eq_refl _, rfl, rfl⟩
  · rw [can_transition, can_transition, h1, h2]
    simp only [evaluate_guards_perm_eq greg t t' ctx htt]
    cases hev : evaluate_guards greg t' ctx with
    | error e => exact rfl
    | ok r => exact ⟨htt, rfl, rfl⟩

theorem allowed_transitions_go_rel (reg : GuardReg) (ctx : TransitionContext)
    (l l' : List Transition) (h : List.Forall₂ perm_eq l l') :
    except_attempts_rel (allowed_transitions_go reg ctx l)
      (allowed_transitions_go reg ctx l') := by
  induction h with
  | nil => exact List.Forall₂.nil
  | @cons a a' l l' hrel hrest ih =>
    rw [allowed_transitions_go, allowed_transitions_go,
      evaluate_guards_perm_eq reg a a' ctx hrel]
    cases hev : evaluate_guards reg a' ctx with
    | error e => exact rfl
    | ok r =>
      simp only []
      cases h1 : allowed_transitions_go reg ctx l with
      | error e =>
        rw [h1] at ih
        cases h2 : allowed_transitions_go reg ctx l' with
        | error e2 => rw [h2] at ih; exact ih
        | ok rest' => rw [h2] at ih; cases ih
      | ok rest =>
        rw [h1] at ih
        cases h2 : allowed_transitions_go reg ctx l' with
        | error e2 => rw [h2] at ih; cases ih
        | ok rest' => rw [h2] at ih; exact List.Forall₂.cons ⟨hrel, rfl, rfl⟩ ih

theorem map_all_allowed_rel (l l' : List Transition) (h : List.Forall₂ perm_eq l l') :
    List.Forall₂ attempt_perm_eq
      (l.map fun t => { transition := t, allowed := true })
      (l'.map fun t => { transition := t, allowed := true }) := by
  induction h with
  | nil => exact .nil
  | cons hrel hrest ih => exact .cons ⟨hrel, rfl, rfl⟩ ih

theorem allowed_transitions_perm_eq
    (table table' : List Transition) (h : List.Forall₂ perm_eq table table')
    (greg : GuardReg) (order : OrderRec) (ctx : Option TransitionContext) :
    except_attempts_rel (allowed_transitions table greg order ctx)
      (allowed_transitions table' greg order ctx) := by
  cases ctx with
  | none =>
    exact map_all_allowed_rel _ _ (transitions_for_state_rel table table' h order.status)
  | some c =>
    exact allowed_transitions_go_rel greg c _ _ (transitions_for_state_rel table table' h order.status)

/-- C9 (amended): two tables that differ only in the `permissions`
lists of their definitions produce literally identical `transition`
outcomes (result, database, lock, effects — the engine never reads the
field), and `can_transition` / `allowed_transitions` outcomes that agree
on everything except the `permissions` list inside the definitions they
embed in the returned attempts. -/
theorem c9_engine_reads_no_permissions
    (table table' : List Transition) (h : List.Forall₂ perm_eq table table')
    (greg : GuardReg) (ereg : EffectReg) (db : DB) (order : OrderRec) (to_state : String)
    (au : Option Actor) (al nt : String) (ps : Params) (ik : Option String) (dr : Bool)
    (ctx : TransitionContext) (octx : Option TransitionContext) :
    transition table greg ereg db order to_state au al nt ps ik dr =
      transition table' greg ereg db order to_state au al nt ps ik dr ∧
    except_attempt_rel (can_transition table greg order to_state ctx)
      (can_transition table' greg order to_state ctx) ∧
    except_attempts_rel (allowed_transitions table greg order octx)
      (allowed_transitions table' greg order octx) :=
  ⟨transition_perm_eq table table' h greg ereg db order to_state au al nt ps ik dr,
   can_transition_perm_eq table table' h greg order to_state ctx,
   allowed_transitions_perm_eq table table' h greg order octx⟩

/-- Fixture: one-definition table without required permissions. -/
def permTableA : List Transition :=
  [{ name := "t", from_states := ["pending"], to_state := "paid" }]

/-- Fixture: the same table with a `permissions` list added. -/
def permTableB : List Transition :=
  [{ name := "t", from_states := ["pending"], to_state := "paid",
     permissions := ["core.change_order"] }]

/-- Counterexample for C9 as stated: the two tables differ only in
`permissions`, yet the `can_transition` results are NOT identical — the
returned attempt embeds the matched definition, whose `permissions`
field differs. -/
theorem c9_counterexample_attempts_embed_permissions :
    can_transition permTableA [] { pk := 1, status := "pending" } "paid"
        { order := { pk := 1, status := "pending" } } =
      .ok { transition := { name := "t", from_states := ["pending"], to_state := "paid" },
            allowed := true, reason := none } ∧
    can_transition permTableB [] { pk := 1, status := "pending" } "paid"
        { order := { pk := 1, status := "pending" } } =
      .ok { transition := { name := "t", from_states := ["pending"], to_state := "paid",
                            permissions := ["core.change_order"] },
            allowed := true, reason := none } ∧
    ({ transition := { name := "t", from_states := ["pending"], to_state := "paid" },
       allowed := true, reason := none } : TransitionAttempt) ≠
      { transition := { name := "t", from_states := ["pending"], to_state := "paid",
                        permissions := ["core.change_order"] },
        allowed := true, reason := none } :=
  ⟨rfl, rfl, by decide⟩

/-- Witness for C9 at the two concrete tables. -/
theorem c9_engine_reads_no_permissions_witness :
    transition permTableA [] [] db0 { pk := 1, status := "pending" } "paid" none "" "" {}
        none false =
      transition permTableB [] [] db0 { pk := 1, status := "pending" } "paid" none "" "" {}
        none false ∧
    except_attempt_rel
      (can_transition permTableA [] { pk := 1, status := "pending" } "paid"
        { order := { pk := 1, status := "pending" } })
      (can_transition permTableB [] { pk := 1, status := "pending" } "paid"
        { order := { pk := 1, status := "pending" } }) ∧
    except_attempts_rel
      (allowed_transitions permTableA [] { pk := 1, status := "pending" } none)
      (allowed_transitions permTableB [] { pk := 1, status := "pending" } none) :=
  c9_engine_reads_no_permissions permTableA permTableB
    (List.Forall₂.cons ⟨rfl, rfl, rfl, rfl, rfl, rfl⟩ List.Forall₂.nil)
    [] [] db0 { pk := 1, status := "pending" } "paid" none "" "" {} none false
    { order := { pk := 1, status := "pending" } } none
